import Mathlib

/-
Verification of the adaptive-difficulty engine of the EyeRadar gamification
platform, shallowly embedded from
`backend/app/services/adaptive_difficulty.py` and
`backend/app/routers/exercises.py`.

Modelling conventions:
* Python `float` accuracies are modelled as rationals (`ℚ`); all constants
  in the source (0.85, 0.60, 0.50, 0.90, 0.70, 0.75, 0.10) are exact
  decimals, written below as fractions.
* Python `int` values (ages, severities, levels, priorities) are `ℤ`.
* Python dicts that the claims touch are association lists with
  `List.lookup` for `d.get(k, default)` and an in-place-update `dict_set`
  for `d[k] = v` (first binding wins, as for unique-keyed Python dicts).
* Python `list.sort(key=..., reverse=True)` is a stable sort; any two
  stable sorts agree extensionally, so it is modelled by Mathlib's
  structural `List.insertionSort` with the relation "priority of the left
  element is at least the priority of the right element".
-/

namespace EyeRadar

/-- Python `int()` applied to a rational: truncation toward zero. -/
def pyTrunc (q : ℚ) : ℤ := if q < 0 then -⌊-q⌋ else ⌊q⌋

/-- `_clamp(value, min_val, max_val)` from adaptive_difficulty.py:
`max(min_val, min(max_val, value))`. -/
def _clamp (value min_val max_val : ℤ) : ℤ := max min_val (min max_val value)

/-- `get_base_level_for_age(age)`: base difficulty level from the age
step function. -/
def get_base_level_for_age (age : ℤ) : ℤ :=
  if age ≤ 5 then 1
  else if age ≤ 7 then 2
  else if age ≤ 9 then 3
  else if age ≤ 11 then 4
  else if age ≤ 13 then 5
  else 6

/-- `get_severity_adjustment(severity)`: the dict
`{1: 1.0, 2: 0.5, 3: 0.0, 4: -0.5, 5: -1.0}` with `.get(severity, 0.0)`. -/
def get_severity_adjustment (severity : ℤ) : ℚ :=
  if severity = 1 then 1
  else if severity = 2 then 1/2
  else if severity = 3 then 0
  else if severity = 4 then -(1/2)
  else if severity = 5 then -1
  else 0

/-- `calculate_weighted_accuracy(recent_accuracies)`: weight `(i+1)/n` for
the i-th sample (0-based), returning `weighted_sum / total_weight` when the
total weight is positive, `None` otherwise.  The single Python loop
accumulating the two sums is rendered as two independent folds. -/
def calculate_weighted_accuracy (recent_accuracies : List ℚ) : Option ℚ :=
  if recent_accuracies = [] then none
  else
    let n : ℚ := recent_accuracies.length
    let weighted_sum : ℚ :=
      recent_accuracies.enum.foldl (fun s p => s + p.2 * (((p.1 : ℚ) + 1) / n)) 0
    let total_weight : ℚ :=
      recent_accuracies.enum.foldl (fun s p => s + (((p.1 : ℚ) + 1) / n)) 0
    if 0 < total_weight then some (weighted_sum / total_weight) else none

/-- The four strings returned by `analyze_performance_trend`, as an
inductive type: "improving", "stable", "declining", "insufficient_data". -/
inductive Trend
  | improving
  | stable
  | declining
  | insufficient_data
deriving DecidableEq

/-- `analyze_performance_trend(recent_accuracies)`: split at the midpoint
(integer division), compare half averages against a 0.10 band. -/
def analyze_performance_trend (recent_accuracies : List ℚ) : Trend :=
  if recent_accuracies.length < 5 then Trend.insufficient_data
  else
    let mid := recent_accuracies.length / 2
    let first_half_avg : ℚ := (recent_accuracies.take mid).sum / (mid : ℚ)
    let second_half_avg : ℚ :=
      (recent_accuracies.drop mid).sum / ((recent_accuracies.length - mid : ℕ) : ℚ)
    let diff := second_half_avg - first_half_avg
    if 1/10 < diff then Trend.improving
    else if diff < -(1/10) then Trend.declining
    else Trend.stable

/-- Step 2 of `calculate_difficulty_level`: the base delta from weighted
accuracy.  `has_enough_sessions` is `len(recent_accuracies) >= 3`
(`MIN_SESSIONS_BEFORE_INCREASE`), `INCREASE_THRESHOLD = 0.85`,
`MAINTAIN_MIN = 0.60`. -/
def base_delta (len : ℕ) (weighted_accuracy : ℚ) : ℤ :=
  if 3 ≤ len ∧ 17/20 < weighted_accuracy then 1
  else if weighted_accuracy < 3/5 then -1
  else 0

/-- Python `recent_accuracies[-3:]`: the last three samples (the whole
list when it is shorter, matching Nat-truncated subtraction). -/
def last_three (recent_accuracies : List ℚ) : List ℚ :=
  recent_accuracies.drop (recent_accuracies.length - 3)

/-- Step 3 of `calculate_difficulty_level`: the streak override on the last
three raw samples.  The inner `has_enough_sessions` test of the source is
kept even though the outer guard already implies it. -/
def streak_delta (recent_accuracies : List ℚ) (delta : ℤ) : ℤ :=
  if 3 ≤ recent_accuracies.length then
    if ∀ a ∈ last_three recent_accuracies, a < 1/2 then -2
    else if (3 ≤ recent_accuracies.length) ∧
        ∀ a ∈ last_three recent_accuracies, 9/10 < a then 2
    else delta
  else delta

/-- Step 4 of `calculate_difficulty_level`: trend-based fine-tuning.  The
source's inner "if delta == -1: delta = -1" is a no-op and is dropped. -/
def trend_delta (trend : Trend) (weighted_accuracy : ℚ) (len : ℕ) (delta : ℤ) : ℤ :=
  if trend = Trend.declining ∧ weighted_accuracy < 7/10 then min delta (-1)
  else if trend = Trend.improving ∧ 3/4 < weighted_accuracy ∧ 3 ≤ len then
    (if delta = 0 then 1 else delta)
  else delta

/-- `calculate_difficulty_level(age, deficit_severity, current_level,
recent_accuracies)`: cold start from age and severity on empty history,
otherwise the delta pipeline (steps 2-4) applied to the weighted accuracy,
clamped to [1, 10]. -/
def calculate_difficulty_level (age deficit_severity current_level : ℤ)
    (recent_accuracies : List ℚ) : ℤ :=
  if recent_accuracies = [] then
    _clamp (pyTrunc ((get_base_level_for_age age : ℚ) +
      get_severity_adjustment deficit_severity)) 1 10
  else
    match calculate_weighted_accuracy recent_accuracies with
    | none => current_level
    | some weighted_accuracy =>
      _clamp (current_level +
        trend_delta (analyze_performance_trend recent_accuracies)
          weighted_accuracy recent_accuracies.length
          (streak_delta recent_accuracies
            (base_delta recent_accuracies.length weighted_accuracy))) 1 10

/-- Python `d.get(k, default)` on an association-list dict. -/
def dict_get (m : List (String × ℤ)) (k : String) (d : ℤ) : ℤ :=
  (m.lookup k).getD d

/-- Python `d[k] = v` on an association-list dict: replace the first
binding of `k` in place, or append a fresh binding at the end. -/
def dict_set : List (String × ℤ) → String → ℤ → List (String × ℤ)
  | [], k, v => [(k, v)]
  | (k2, v2) :: t, k, v =>
    if k2 = k then (k, v) :: t else (k2, v2) :: dict_set t k v

/-- `accuracy = correct_count / total_items if total_items > 0 else 0`
from `complete_session` in routers/exercises.py. -/
def session_accuracy (correct_count total_items : ℕ) : ℚ :=
  if 0 < total_items then (correct_count : ℚ) / (total_items : ℚ) else 0

/-- The update of the student's per-area `current_levels` map performed by
`complete_session` in routers/exercises.py: bump the deficit area by +1
(capped at 10) when accuracy > 0.85, by -1 (floored at 1) when
accuracy < 0.50, otherwise leave the map untouched; an absent area reads
as 1 (`current_levels.get(deficit_area, 1)`). -/
def complete_session_current_levels (current_levels : List (String × ℤ))
    (deficit_area : String) (accuracy : ℚ) : List (String × ℤ) :=
  if 17/20 < accuracy then
    dict_set current_levels deficit_area
      (min 10 (dict_get current_levels deficit_area 1 + 1))
  else if accuracy < 1/2 then
    dict_set current_levels deficit_area
      (max 1 (dict_get current_levels deficit_area 1 - 1))
  else current_levels

/-- One entry of the list built by `get_recommended_deficit_areas`.  The
`avg_accuracy` field holds the exact average; the display-only rounding
`round(avg_accuracy, 2)` of the source is not modelled (it feeds no
computation). -/
structure Recommendation where
  area : String
  severity : ℤ
  priority : ℤ
  sessions_completed : ℕ
  avg_accuracy : ℚ
  trend : Trend
deriving DecidableEq

/-- `info.get("severity", 3) if isinstance(info, dict) else 3`: the deficit
info is modelled as `Option ℤ` (`none` when no severity is recoverable). -/
def deficit_severity_of (info : Option ℤ) : ℤ := info.getD 3

/-- The loop body of `get_recommended_deficit_areas` for one area: the
sequential priority mutations of the source, then the record pushed onto
`recommendations`.  `recent` is `session_history.get(area, [])`;
`recent[-1]` and `recent[-2]` are the last and second-to-last samples. -/
def build_recommendation (session_history : List (String × List ℚ))
    (area : String) (info : Option ℤ) : Recommendation :=
  let severity := deficit_severity_of info
  let recent := (session_history.lookup area).getD []
  let session_count := recent.length
  let priority1 : ℤ := severity * 2
  let priority2 : ℤ :=
    if session_count < 3 then priority1 + 3
    else if session_count < 5 then priority1 + 1
    else priority1
  let trend := analyze_performance_trend recent
  let priority3 : ℤ := if trend = Trend.declining then priority2 + 2 else priority2
  let priority4 : ℤ :=
    if trend = Trend.improving ∧ 2 ≤ recent.length ∧
        recent.getD (recent.length - 2) 0 < recent.getD (recent.length - 1) 0 then
      priority3 + 1
    else priority3
  let avg_accuracy : ℚ := if recent = [] then 0 else recent.sum / (recent.length : ℚ)
  let priority5 : ℤ :=
    if 9/10 < avg_accuracy ∧ 10 ≤ session_count then priority4 - 2 else priority4
  { area := area
    severity := severity
    priority := max 1 priority5
    sessions_completed := session_count
    avg_accuracy := avg_accuracy
    trend := trend }

/-- `get_recommended_deficit_areas(deficits, session_history)`: build one
recommendation per deficit area (in dict order), then
`recommendations.sort(key=lambda x: x["priority"], reverse=True)` — a
stable descending sort, modelled by `List.insertionSort` with the
descending-priority relation. -/
def get_recommended_deficit_areas (deficits : List (String × Option ℤ))
    (session_history : List (String × List ℚ)) : List Recommendation :=
  List.insertionSort (fun a b => b.priority ≤ a.priority)
    (deficits.map (fun p => build_recommendation session_history p.1 p.2))

/-- Priority formula as the spec states it: `max(1, severity*2 + bonuses
and penalty)`, with +3 for fewer than 3 sessions else +1 for fewer than 5,
+2 for a declining trend, +1 for an improving trend whose most recent
sample exceeds the second-most-recent, and -2 for average accuracy above
0.90 with at least 10 sessions. -/
def priority_spec (severity : ℤ) (recent : List ℚ) : ℤ :=
  max 1 (severity * 2
    + (if recent.length < 3 then 3 else if recent.length < 5 then 1 else 0)
    + (if analyze_performance_trend recent = Trend.declining then 2 else 0)
    + (if analyze_performance_trend recent = Trend.improving ∧ 2 ≤ recent.length ∧
          recent.getD (recent.length - 2) 0 < recent.getD (recent.length - 1) 0
        then 1 else 0)
    + (if 9/10 < (if recent = [] then 0 else recent.sum / (recent.length : ℚ)) ∧
          10 ≤ recent.length
        then -2 else 0))

/- ── Helper lemmas ──────────────────────────────────────────────────── -/

/-- Folding the per-sample weights only ever increases the accumulator. -/
lemma le_foldl_weight (n : ℚ) (hn : 0 < n) :
    ∀ (l : List (ℕ × ℚ)) (s : ℚ),
      s ≤ l.foldl (fun s p => s + (((p.1 : ℚ) + 1) / n)) s
  | [], s => le_refl s
  | p :: t, s => by
    have h1 : (0:ℚ) < ((p.1 : ℚ) + 1) / n := by positivity
    have h2 := le_foldl_weight n hn t (s + (((p.1 : ℚ) + 1) / n))
    calc s ≤ s + (((p.1 : ℚ) + 1) / n) := by linarith
    _ ≤ _ := h2

/-- The total weight computed by `calculate_weighted_accuracy` is strictly
positive on a non-empty sample list. -/
lemma total_weight_pos (recent : List ℚ) (h : recent ≠ []) :
    0 < recent.enum.foldl (fun s p => s + (((p.1 : ℚ) + 1) / (recent.length : ℚ))) 0 := by
  obtain ⟨a, t, rfl⟩ := List.exists_cons_of_ne_nil h
  have hn : (0:ℚ) < ((a :: t).length : ℚ) := by
    simp [List.length_cons]
    positivity
  rw [List.enum_cons]
  have hstep : (0:ℚ) + (((0 : ℕ) : ℚ) + 1) / ((a :: t).length : ℚ) =
      1 / ((a :: t).length : ℚ) := by norm_num
  calc (0:ℚ) < 1 / ((a :: t).length : ℚ) := by positivity
  _ = (0:ℚ) + (((0 : ℕ) : ℚ) + 1) / ((a :: t).length : ℚ) := hstep.symm
  _ ≤ _ := le_foldl_weight _ hn _ _

/-- On a non-empty list, `calculate_weighted_accuracy` returns a value. -/
lemma calculate_weighted_accuracy_isSome (recent : List ℚ) (h : recent ≠ []) :
    ∃ w, calculate_weighted_accuracy recent = some w := by
  simp only [calculate_weighted_accuracy, if_neg h]
  rw [if_pos (total_weight_pos recent h)]
  exact ⟨_, rfl⟩

lemma _clamp_bounds (v : ℤ) : 1 ≤ _clamp v 1 10 ∧ _clamp v 1 10 ≤ 10 := by
  unfold _clamp; omega

lemma _clamp_le (v cl : ℤ) (h1 : 1 ≤ cl) (h : v ≤ cl) : _clamp v 1 10 ≤ cl := by
  unfold _clamp; omega

lemma le_clamp (v cl : ℤ) (h1 : cl ≤ 10) (h : cl ≤ v) : cl ≤ _clamp v 1 10 := by
  unfold _clamp; omega

lemma _clamp_eq (v : ℤ) (h1 : 1 ≤ v) (h2 : v ≤ 10) : _clamp v 1 10 = v := by
  unfold _clamp; omega

lemma _clamp_mono (v w : ℤ) (h : v ≤ w) : _clamp v 1 10 ≤ _clamp w 1 10 := by
  unfold _clamp; omega

/-- Characterization of `calculate_difficulty_level` on a history whose
weighted accuracy is defined: the delta pipeline, clamped. -/
lemma calculate_difficulty_level_eq (age sev cl : ℤ) (recent : List ℚ) (wa : ℚ)
    (hw : calculate_weighted_accuracy recent = some wa) :
    calculate_difficulty_level age sev cl recent =
      _clamp (cl + trend_delta (analyze_performance_trend recent) wa recent.length
        (streak_delta recent (base_delta recent.length wa))) 1 10 := by
  have h : recent ≠ [] := by
    rintro rfl
    simp [calculate_weighted_accuracy] at hw
  unfold calculate_difficulty_level
  rw [if_neg h, hw]

lemma analyze_short (recent : List ℚ) (h : recent.length < 5) :
    analyze_performance_trend recent = Trend.insufficient_data := by
  unfold analyze_performance_trend
  rw [if_pos h]

/- ── Claim theorems ─────────────────────────────────────────────────── -/

/-- C1: For every integer age, severity, current level and every list of
accuracy samples, `calculate_difficulty_level` returns a value in [1, 10];
in particular, with current_level = 10 and a length-5 history of all 0.95
samples the result is capped at 10, not 12. -/
theorem C1_level_in_range (age deficit_severity current_level : ℤ) (recent : List ℚ) :
    (1 ≤ calculate_difficulty_level age deficit_severity current_level recent ∧
      calculate_difficulty_level age deficit_severity current_level recent ≤ 10) ∧
    calculate_difficulty_level age deficit_severity 10 (List.replicate 5 (19/20)) = 10 := by
  constructor
  · by_cases h : recent = []
    · subst h
      unfold calculate_difficulty_level
      rw [if_pos rfl]
      exact _clamp_bounds _
    · obtain ⟨w, hw⟩ := calculate_weighted_accuracy_isSome recent h
      rw [calculate_difficulty_level_eq age deficit_severity current_level recent w hw]
      exact _clamp_bounds _
  · norm_num [calculate_difficulty_level, calculate_weighted_accuracy, List.replicate,
      List.enum, List.enumFrom, base_delta, streak_delta, trend_delta, last_three,
      analyze_performance_trend, _clamp, List.cons_ne_nil, ne_eq]

/-- C2: On empty history the result is independent of the current level and
equals the clamped truncation of age base plus severity adjustment; in
particular age 5 severity 3 gives 1, age 9 severity 1 gives 4, and age 14
severity 5 gives 5. -/
theorem C2_cold_start (age severity cl cl2 : ℤ) :
    calculate_difficulty_level age severity cl [] =
      _clamp (pyTrunc ((get_base_level_for_age age : ℚ) +
        get_severity_adjustment severity)) 1 10 ∧
    calculate_difficulty_level age severity cl [] =
      calculate_difficulty_level age severity cl2 [] ∧
    calculate_difficulty_level 5 3 cl [] = 1 ∧
    calculate_difficulty_level 9 1 cl [] = 4 ∧
    calculate_difficulty_level 14 5 cl [] = 5 := by
  refine ⟨rfl, rfl, ?_, ?_, ?_⟩ <;>
    norm_num [calculate_difficulty_level, get_base_level_for_age, get_severity_adjustment,
      pyTrunc, _clamp]

/-- C3: When the last three samples are all below 0.50 (and at least three
sessions exist), the result is exactly the current level minus 2, clamped
to [1, 10], regardless of the weighted average and the trend. -/
theorem C3_streak_decrease (age sev cl : ℤ) (recent : List ℚ)
    (h3 : 3 ≤ recent.length)
    (hlt : ∀ a ∈ last_three recent, a < 1/2) :
    calculate_difficulty_level age sev cl recent = _clamp (cl - 2) 1 10 := by
  have hne : recent ≠ [] := by
    intro e; subst e; simp at h3
  obtain ⟨w, hw⟩ := calculate_weighted_accuracy_isSome recent hne
  rw [calculate_difficulty_level_eq age sev cl recent w hw]
  have hs : streak_delta recent (base_delta recent.length w) = -2 := by
    unfold streak_delta
    rw [if_pos h3, if_pos hlt]
  rw [hs]
  have ht : trend_delta (analyze_performance_trend recent) w recent.length (-2) = -2 := by
    unfold trend_delta
    split_ifs with h1 h2 h3x
    · decide
    · exact h3x.elim
    · rfl
    · rfl
  rw [ht]
  unfold _clamp
  omega

/-- Witness for C3: the last three samples 0.3, 0.2, 0.4 force the −2
delta at current level 5. -/
theorem C3_witness :
    calculate_difficulty_level 8 3 5 [3/10, 2/10, 4/10] = _clamp (5 - 2) 1 10 :=
  C3_streak_decrease 8 3 5 [3/10, 2/10, 4/10] (by norm_num)
    (by norm_num [last_three])

/-- C4: With only one or two sessions recorded, the warm-up gate keeps the
applied delta non-positive — never +1 or +2, whatever the weighted
accuracy — so the returned level never exceeds the current level (for
current levels in [1, 10]). -/
theorem C4_warm_up_gate (age sev cl : ℤ) (recent : List ℚ) (w : ℚ)
    (hw : calculate_weighted_accuracy recent = some w)
    (hlen : recent.length = 1 ∨ recent.length = 2)
    (hcl : 1 ≤ cl) (_hcl10 : cl ≤ 10) :
    trend_delta (analyze_performance_trend recent) w recent.length
      (streak_delta recent (base_delta recent.length w)) ≤ 0 ∧
    calculate_difficulty_level age sev cl recent ≤ cl := by
  rw [calculate_difficulty_level_eq age sev cl recent w hw]
  have h3 : ¬ (3 ≤ recent.length) := by omega
  have hbase : base_delta recent.length w ≤ 0 := by
    unfold base_delta
    split_ifs with h1 h2
    · exact absurd h1.1 h3
    · omega
    · omega
  have hstreak : streak_delta recent (base_delta recent.length w) =
      base_delta recent.length w := by
    unfold streak_delta
    rw [if_neg h3]
  have htrend : analyze_performance_trend recent = Trend.insufficient_data :=
    analyze_short recent (by omega)
  rw [hstreak, htrend]
  have ht : trend_delta Trend.insufficient_data w recent.length
      (base_delta recent.length w) = base_delta recent.length w := by
    unfold trend_delta
    split_ifs with h1 h2 <;> simp_all
  rw [ht]
  exact ⟨by omega, _clamp_le _ _ hcl (by omega)⟩

/-- Witness for C4: two sessions at accuracy 0.95 do not raise level 5. -/
theorem C4_witness :
    calculate_difficulty_level 8 3 5 [19/20, 19/20] ≤ 5 :=
  (C4_warm_up_gate 8 3 5 [19/20, 19/20] (19/20)
    (by norm_num [calculate_weighted_accuracy, List.enum, List.enumFrom,
      List.cons_ne_nil, ne_eq])
    (by norm_num) (by norm_num) (by norm_num)).2

/-- C10: On any non-empty history the weighted accuracy is defined (its
total weight is positive), so the defensive branch of
`calculate_difficulty_level` that returns the current level unchanged is
unreachable: the result always goes through the delta pipeline. -/
theorem C10_weighted_accuracy_total (recent : List ℚ) (hne : recent ≠ []) :
    (calculate_weighted_accuracy recent).isSome = true ∧
    ∀ age sev cl, calculate_difficulty_level age sev cl recent =
      _clamp (cl + trend_delta (analyze_performance_trend recent)
        ((calculate_weighted_accuracy recent).getD 0) recent.length
        (streak_delta recent (base_delta recent.length
          ((calculate_weighted_accuracy recent).getD 0)))) 1 10 := by
  obtain ⟨w, hw⟩ := calculate_weighted_accuracy_isSome recent hne
  rw [hw]
  refine ⟨rfl, fun age sev cl => ?_⟩
  simpa using calculate_difficulty_level_eq age sev cl recent w hw

/-- Witness for C10 at the singleton history [0.5]. -/
theorem C10_witness :
    (calculate_weighted_accuracy [(1:ℚ)/2]).isSome = true :=
  (C10_weighted_accuracy_total [(1:ℚ)/2] (by simp)).1

/-- C5 counterexample: on the history
[0.7, 0.7, 0.7, 0.7, 0, 0, 0.91, 0.91, 0.91] (all samples in [0, 1]) the
delta after steps 2-3 is +2 (a streak of three samples above 0.90), yet
the declining trend with weighted accuracy 721/1125 < 0.70 reverses it to
min(+2, −1) = −1: from level 5 the engine returns 4, strictly below the
current level, contradicting the claim that a positive post-streak delta
yields a level at least the current one. -/
theorem C5_counterexample :
    streak_delta [7/10, 7/10, 7/10, 7/10, 0, 0, 91/100, 91/100, 91/100]
      (base_delta 9 ((calculate_weighted_accuracy
        [7/10, 7/10, 7/10, 7/10, 0, 0, 91/100, 91/100, 91/100]).getD 0)) = 2 ∧
    calculate_difficulty_level 8 3 5
      [7/10, 7/10, 7/10, 7/10, 0, 0, 91/100, 91/100, 91/100] = 4 := by
  constructor
  · norm_num [streak_delta, base_delta, last_three, calculate_weighted_accuracy,
      List.enum, List.enumFrom, List.cons_ne_nil, ne_eq]
  · norm_num [calculate_difficulty_level, calculate_weighted_accuracy,
      List.enum, List.enumFrom, base_delta, streak_delta, trend_delta, last_three,
      analyze_performance_trend, _clamp, List.cons_ne_nil, ne_eq]

/-- C5 amended: the trend correction never turns a negative post-streak
delta into an increase — the returned level is then at most the current
level — and a positive post-streak delta yields a level at least the
current one unless the trend is declining with weighted accuracy below
0.70, in which case the declining clamp may reverse a streak increase. -/
theorem C5_trend_tightening (age sev cl : ℤ) (recent : List ℚ) (wa : ℚ)
    (hw : calculate_weighted_accuracy recent = some wa)
    (hcl : 1 ≤ cl) (hcl10 : cl ≤ 10) :
    (streak_delta recent (base_delta recent.length wa) < 0 →
      calculate_difficulty_level age sev cl recent ≤ cl) ∧
    (0 < streak_delta recent (base_delta recent.length wa) →
      ¬ (analyze_performance_trend recent = Trend.declining ∧ wa < 7/10) →
      cl ≤ calculate_difficulty_level age sev cl recent) := by
  rw [calculate_difficulty_level_eq age sev cl recent wa hw]
  constructor
  · intro hneg
    refine _clamp_le _ _ hcl ?_
    have hd : trend_delta (analyze_performance_trend recent) wa recent.length
        (streak_delta recent (base_delta recent.length wa)) ≤ 0 := by
      unfold trend_delta
      split_ifs with h1 h2 h3x
      · exact le_trans (min_le_right _ _) (by norm_num)
      · omega
      · omega
      · omega
    omega
  · intro hpos hnot
    refine le_clamp _ _ hcl10 ?_
    have hd : streak_delta recent (base_delta recent.length wa) ≤
        trend_delta (analyze_performance_trend recent) wa recent.length
          (streak_delta recent (base_delta recent.length wa)) := by
      unfold trend_delta
      split_ifs with h1 h2 <;> omega
    omega

/-- Witness for the amended C5: a negative post-streak delta at level 6
yields a level at most 6. -/
theorem C5_witness :
    calculate_difficulty_level 8 3 6 [3/10, 2/10, 4/10] ≤ 6 :=
  (C5_trend_tightening 8 3 6 [3/10, 2/10, 4/10] (19/60)
    (by norm_num [calculate_weighted_accuracy, List.enum, List.enumFrom,
      List.cons_ne_nil, ne_eq])
    (by norm_num) (by norm_num)).1
    (by norm_num [streak_delta, base_delta, last_three])

/-- C6: With a declining trend and weighted accuracy below 0.70 the
returned level is at most the level implied by a −1 delta; and when the
streak override already forced −2 it stays −2. -/
theorem C6_declining_clamp (age sev cl : ℤ) (recent : List ℚ) (wa : ℚ)
    (h5 : 5 ≤ recent.length)
    (htrend : analyze_performance_trend recent = Trend.declining)
    (hw : calculate_weighted_accuracy recent = some wa)
    (hwa : wa < 7/10)
    (hcl : 1 ≤ cl) (hcl10 : cl ≤ 10) :
    calculate_difficulty_level age sev cl recent ≤ _clamp (cl - 1) 1 10 ∧
    ((∀ a ∈ last_three recent, a < 1/2) →
      calculate_difficulty_level age sev cl recent = _clamp (cl - 2) 1 10) := by
  rw [calculate_difficulty_level_eq age sev cl recent wa hw]
  have hmin : ∀ d : ℤ, trend_delta (analyze_performance_trend recent) wa
      recent.length d = min d (-1) := by
    intro d
    unfold trend_delta
    rw [htrend]
    rw [if_pos ⟨rfl, hwa⟩]
  constructor
  · rw [hmin]
    refine _clamp_mono _ _ ?_
    have := min_le_right (streak_delta recent (base_delta recent.length wa)) (-1 : ℤ)
    omega
  · intro hstreak
    have h3 : 3 ≤ recent.length := by omega
    have hs : streak_delta recent (base_delta recent.length wa) = -2 := by
      unfold streak_delta
      rw [if_pos h3, if_pos hstreak]
    rw [hs, hmin]
    have hm2 : min (-2 : ℤ) (-1) = -2 := by decide
    rw [hm2]
    unfold _clamp
    omega

/-- Witness for C6: five sessions 0.8, 0.8, 0.8, 0.3, 0.3 have a declining
trend and weighted accuracy 0.5; from level 5 the result is at most 4. -/
theorem C6_witness :
    calculate_difficulty_level 8 3 5 [4/5, 4/5, 4/5, 3/10, 3/10] ≤ _clamp (5 - 1) 1 10 :=
  (C6_declining_clamp 8 3 5 [4/5, 4/5, 4/5, 3/10, 3/10] (1/2)
    (by norm_num)
    (by norm_num [analyze_performance_trend, List.cons_ne_nil, ne_eq])
    (by norm_num [calculate_weighted_accuracy, List.enum, List.enumFrom,
      List.cons_ne_nil, ne_eq])
    (by norm_num) (by norm_num) (by norm_num)).1

/-- C7: With weighted accuracy in [0.60, 0.85], no extreme streak in the
last three samples, and a stable (or insufficient-data) trend, the engine
returns exactly the current level. -/
theorem C7_maintain_identity (age sev cl : ℤ) (recent : List ℚ) (wa : ℚ)
    (hw : calculate_weighted_accuracy recent = some wa)
    (hlo : 3/5 ≤ wa) (hhi : wa ≤ 17/20)
    (hs1 : ¬ ∀ a ∈ last_three recent, a < 1/2)
    (hs2 : ¬ ∀ a ∈ last_three recent, 9/10 < a)
    (ht : analyze_performance_trend recent = Trend.stable ∨
      analyze_performance_trend recent = Trend.insufficient_data)
    (hcl : 1 ≤ cl) (hcl10 : cl ≤ 10) :
    calculate_difficulty_level age sev cl recent = cl := by
  rw [calculate_difficulty_level_eq age sev cl recent wa hw]
  have hbase : base_delta recent.length wa = 0 := by
    unfold base_delta
    rw [if_neg (fun h => absurd h.2 (not_lt.mpr hhi)), if_neg (not_lt.mpr hlo)]
  have hstreak : streak_delta recent 0 = 0 := by
    unfold streak_delta
    split_ifs with h1 h2
    · exact absurd h2.2 hs2
    · rfl
    · rfl
  have htr : trend_delta (analyze_performance_trend recent) wa recent.length 0 = 0 := by
    rcases ht with h | h <;> (rw [h]; unfold trend_delta; simp)
  rw [hbase, hstreak, htr, add_zero]
  exact _clamp_eq cl hcl hcl10

/-- Witness for C7: three sessions at 0.7 leave level 5 unchanged. -/
theorem C7_witness :
    calculate_difficulty_level 8 3 5 [7/10, 7/10, 7/10] = 5 :=
  C7_maintain_identity 8 3 5 [7/10, 7/10, 7/10] (7/10)
    (by norm_num [calculate_weighted_accuracy, List.enum, List.enumFrom,
      List.cons_ne_nil, ne_eq])
    (by norm_num) (by norm_num)
    (by norm_num [last_three])
    (by norm_num [last_three])
    (Or.inr (by norm_num [analyze_performance_trend]))
    (by norm_num) (by norm_num)

/-- Looking up the key just written by `dict_set` yields the new value. -/
lemma dict_get_dict_set (m : List (String × ℤ)) (k : String) (v d : ℤ) :
    dict_get (dict_set m k v) k d = v := by
  induction m with
  | nil => simp [dict_set, dict_get, List.lookup]
  | cons p t ih =>
    obtain ⟨k2, v2⟩ := p
    by_cases h : k2 = k
    · subst h
      simp [dict_set, dict_get, List.lookup]
    · have hb : (k == k2) = false := beq_eq_false_iff_ne.mpr (Ne.symm h)
      simp only [dict_set, if_neg h, dict_get, List.lookup, hb]
      exact ih

/-- `dict_set` leaves every other key unchanged. -/
lemma dict_get_dict_set_ne (m : List (String × ℤ)) (k k2 : String) (h : k2 ≠ k)
    (v d : ℤ) : dict_get (dict_set m k v) k2 d = dict_get m k2 d := by
  have hb : (k2 == k) = false := beq_eq_false_iff_ne.mpr h
  induction m with
  | nil => simp [dict_set, dict_get, List.lookup, hb]
  | cons p t ih =>
    obtain ⟨k3, v3⟩ := p
    by_cases h3 : k3 = k
    · subst h3
      simp [dict_set, dict_get, List.lookup, hb]
    · cases hb3 : (k2 == k3)
      · simp only [dict_set, if_neg h3, dict_get, List.lookup, hb3]
        exact ih
      · simp [dict_set, if_neg h3, dict_get, List.lookup, hb3]

/-- C8: At session completion the persisted level of the session's deficit
area becomes min(10, old + 1) exactly when accuracy exceeds 0.85, becomes
max(1, old − 1) exactly when accuracy is below 0.50, and is otherwise left
unchanged, where old defaults to 1 for an absent area; every other area's
entry is untouched.  The rule reads only the accuracy and the old map —
not the output of `calculate_difficulty_level`. -/
theorem C8_complete_session_levels (m : List (String × ℤ)) (area : String) (acc : ℚ) :
    (dict_get (complete_session_current_levels m area acc) area 1 =
      (if 17/20 < acc then min 10 (dict_get m area 1 + 1)
       else if acc < 1/2 then max 1 (dict_get m area 1 - 1)
       else dict_get m area 1)) ∧
    ∀ other, other ≠ area →
      dict_get (complete_session_current_levels m area acc) other 1 =
        dict_get m other 1 := by
  unfold complete_session_current_levels
  split_ifs with h1 h2
  · exact ⟨dict_get_dict_set m area _ 1,
      fun other hne => dict_get_dict_set_ne m area other hne _ 1⟩
  · exact ⟨dict_get_dict_set m area _ 1,
      fun other hne => dict_get_dict_set_ne m area other hne _ 1⟩
  · exact ⟨rfl, fun _ _ => rfl⟩

/-- Witness for C8: area at level 3, session accuracy 0.9: the area is
bumped to 4 and an unrelated area still reads its default 1. -/
theorem C8_witness :
    dict_get (complete_session_current_levels [("visual_tracking", 3)]
      "visual_tracking" (9/10)) "visual_tracking" 1 = 4 ∧
    dict_get (complete_session_current_levels [("visual_tracking", 3)]
      "visual_tracking" (9/10)) "focus" 1 = 1 := by
  have h := C8_complete_session_levels [("visual_tracking", 3)] "visual_tracking" (9/10)
  refine ⟨?_, ?_⟩
  · rw [h.1]
    norm_num [dict_get, List.lookup]
  · rw [h.2 "focus" (by simp)]
    simp [dict_get, List.lookup]

/-- C9: Every recommendation's priority equals the spec's formula; the
returned list is a permutation of the per-area recommendations built in
input (dict) order; it is sorted by descending priority; and any
input-ordered selection of recommendations with pairwise equal priorities
survives as a subsequence of the output — ties keep their original
relative order (stability). -/
theorem C9_recommendations (deficits : List (String × Option ℤ))
    (session_history : List (String × List ℚ)) :
    (∀ area info, (build_recommendation session_history area info).priority =
      priority_spec (deficit_severity_of info)
        ((session_history.lookup area).getD [])) ∧
    (get_recommended_deficit_areas deficits session_history).Perm
      (deficits.map (fun p => build_recommendation session_history p.1 p.2)) ∧
    (get_recommended_deficit_areas deficits session_history).Pairwise
      (fun a b => b.priority ≤ a.priority) ∧
    ∀ c : List Recommendation,
      c.Sublist (deficits.map (fun p => build_recommendation session_history p.1 p.2)) →
      c.Pairwise (fun a b => a.priority = b.priority) →
      c.Sublist (get_recommended_deficit_areas deficits session_history) := by
  refine ⟨?_, ?_, ?_, ?_⟩
  · intro area info
    simp only [build_recommendation, priority_spec]
    split_ifs <;> omega
  · unfold get_recommended_deficit_areas
    exact List.perm_insertionSort _ _
  · unfold get_recommended_deficit_areas
    haveI hto : IsTotal Recommendation (fun a b => b.priority ≤ a.priority) :=
      ⟨fun a b => le_total b.priority a.priority⟩
    haveI htr : IsTrans Recommendation (fun a b => b.priority ≤ a.priority) :=
      ⟨fun a b c hab hbc => le_trans hbc hab⟩
    exact List.sorted_insertionSort _ _
  · intro c hc hpair
    unfold get_recommended_deficit_areas
    exact List.sublist_insertionSort (hpair.imp fun h => le_of_eq h.symm) hc

/-- Witness for C9: two areas of severity 2 with no history both get
priority 7, and the tied pair keeps its input order in the output. -/
theorem C9_witness :
    ([("area_a", some 2), ("area_b", some 2)].map
      (fun p => build_recommendation [] p.1 p.2)).Sublist
      (get_recommended_deficit_areas [("area_a", some 2), ("area_b", some 2)] []) :=
  (C9_recommendations [("area_a", some 2), ("area_b", some 2)] []).2.2.2 _
    (List.Sublist.refl _)
    (by norm_num [build_recommendation, deficit_severity_of, analyze_performance_trend,
      List.lookup])

end EyeRadar
